import Mathlib

/-!
Shallow embedding of `relaxation.cpp`, a simulation of a relaxation
oscillator (resistor-capacitor loop driven by a Schmitt-trigger inverter).
The C++ `floating` type (an alias of `double`) is modelled by the exact
rationals `ℚ`; the `std::optional<floating>` fields become `Option ℚ`.
Console and file output are modelled only where a claim is about them.
-/

abbrev floating := ℚ

/-- Embedding of `class Capacitor` (relaxation.cpp lines 39-68):
fields `capacitance` and `totalCharge`. -/
structure Capacitor where
  capacitance : floating
  totalCharge : floating
deriving DecidableEq, Repr

/-- Embedding of the constructor `Capacitor(floating capacitance)`
(line 47).  The mem-initializer list sets only `capacitance`; the member
`totalCharge` is left default-initialized, i.e. it keeps whatever
indeterminate value the storage held.  That indeterminate value is made
an explicit parameter here. -/
def Capacitor.construct (capacitance indeterminateCharge : floating) : Capacitor :=
  ⟨capacitance, indeterminateCharge⟩

/-- Embedding of `Capacitor::addCharge` (lines 55-57). -/
def Capacitor.addCharge (c : Capacitor) (charge : floating) : Capacitor :=
  { c with totalCharge := c.totalCharge + charge }

/-- Embedding of `Capacitor::voltage` (lines 64-66). -/
def Capacitor.voltage (c : Capacitor) : floating :=
  c.totalCharge / c.capacitance

/-- Embedding of `class Resistor` (lines 73-94). -/
structure Resistor where
  resistance : floating
deriving DecidableEq, Repr

/-- Embedding of `Resistor::current` (lines 90-92). -/
def Resistor.current (r : Resistor) (v1 v2 : floating) : floating :=
  (v1 - v2) / r.resistance

/-- Embedding of `class Inverter` (lines 104-166), field order as in the
source: `outputHi`, `outputLow`, `hiLowTransition`, `lowHiTransition`,
`hi`. -/
structure Inverter where
  outputHi : floating
  outputLow : floating
  hiLowTransition : floating
  lowHiTransition : floating
  hi : Bool
deriving DecidableEq, Repr

/-- Embedding of `Inverter::setInputVoltage` (lines 143-154). -/
def Inverter.setInputVoltage (inv : Inverter) (voltage : floating) : Inverter :=
  if !inv.hi then
    if voltage ≤ inv.hiLowTransition then { inv with hi := true } else inv
  else if inv.lowHiTransition ≤ voltage then { inv with hi := false }
  else inv

/-- Embedding of the constructor `Inverter(outputLow, outputHi,
hiLowTransition, lowHiTransition, voltage)` (lines 126-136).  The member
`bool hi` has no initializer and is not in the mem-initializer list, so
the constructor body calls `setInputVoltage` starting from an
indeterminate `hi`; that indeterminate boolean is an explicit parameter
here. -/
def Inverter.construct (outputLow outputHi hiLowTransition lowHiTransition
    voltage : floating) (indeterminateHi : Bool) : Inverter :=
  Inverter.setInputVoltage
    ⟨outputHi, outputLow, hiLowTransition, lowHiTransition, indeterminateHi⟩ voltage

/-- Embedding of `Inverter::getOutputVoltage` (lines 161-165). -/
def Inverter.getOutputVoltage (inv : Inverter) : floating :=
  if inv.hi then inv.outputHi else inv.outputLow

/-- Embedding of `class StateMonitor` (lines 173-218); the spec calls it
`TransitionMonitor`.  All three fields are `std::optional<floating>`,
default-constructed empty. -/
structure StateMonitor where
  highInterval : Option floating
  lowInterval : Option floating
  previousTime : Option floating
deriving DecidableEq, Repr

/-- A default-constructed `StateMonitor()` (line 341): all optionals empty. -/
def StateMonitor.init : StateMonitor :=
  ⟨none, none, none⟩

/-- Embedding of `StateMonitor::stateChange` (lines 186-208), minus the
`std::cout` logging, which carries no state. -/
def StateMonitor.stateChange (m : StateMonitor) (stateHigh : Bool)
    (time : floating) : StateMonitor :=
  let m' :=
    match m.previousTime with
    | none => m
    | some prev =>
      let interval := time - prev
      if stateHigh then
        if m.lowInterval.isNone then { m with lowInterval := some interval } else m
      else if m.highInterval.isNone then { m with highInterval := some interval }
      else m
  { m' with previousTime := some time }

/-- Embedding of `StateMonitor::getPeriod` (lines 215-217):
`highInterval.value() + lowInterval.value()`.  Calling `.value()` on an
empty `std::optional` throws `std::bad_optional_access`; that fallible
access is modelled by returning `none` when either accumulator is
unset. -/
def StateMonitor.getPeriod (m : StateMonitor) : Option floating :=
  match m.highInterval, m.lowInterval with
  | some h, some l => some (h + l)
  | _, _ => none

/-- One CSV record written by the loop (line 353-355):
`step * timestepSize`, the capacitor voltage after `addCharge`, and the
inverter output voltage after `setInputVoltage`. -/
structure Sample where
  time : floating
  capacitorVoltage : floating
  inverterOutput : floating
deriving DecidableEq, Repr

/-- The per-iteration mutable state of the loop in `main`: the three circuit
components, the `stateMonitor`, and `lastInverterOutput` (lines 317-342). -/
structure SimState where
  capacitor : Capacitor
  inverter : Inverter
  monitor : StateMonitor
  lastInverterOutput : Option floating
deriving DecidableEq, Repr

/-- Embedding of one iteration of the loop body of `main` (lines 343-365) at
step index `stepIdx`: read the voltages, compute the resistor current,
integrate the charge, feed the capacitor voltage back to the inverter,
emit the CSV sample, and forward an edge event to the monitor when the
inverter output differs from `lastInverterOutput`. -/
def simStep (resistor : Resistor) (timestepSize logicHighVoltage : floating)
    (stepIdx : ℕ) (s : SimState) : SimState × Sample :=
  let capacitorVoltage := s.capacitor.voltage
  let inverterVoltage := s.inverter.getOutputVoltage
  let current := resistor.current inverterVoltage capacitorVoltage
  let charge := current * timestepSize
  let capacitor := s.capacitor.addCharge charge
  let inverter := s.inverter.setInputVoltage capacitor.voltage
  let inverterOutput := inverter.getOutputVoltage
  let sample : Sample := ⟨(stepIdx : floating) * timestepSize, capacitor.voltage,
    inverterOutput⟩
  match s.lastInverterOutput with
  | none =>
    (⟨capacitor, inverter, s.monitor, some inverterOutput⟩, sample)
  | some last =>
    if last = inverterOutput then
      (⟨capacitor, inverter, s.monitor, s.lastInverterOutput⟩, sample)
    else
      (⟨capacitor, inverter,
        s.monitor.stateChange (inverterOutput = logicHighVoltage)
          ((stepIdx : floating) * timestepSize),
        some inverterOutput⟩, sample)

/-- Embedding of the `for` loop of `main` (lines 343-365): run `n` iterations
of `simStep` starting at step index `i`, returning the final state and
the list of emitted CSV samples in step order. -/
def runSteps (resistor : Resistor) (timestepSize logicHighVoltage : floating) :
    ℕ → ℕ → SimState → SimState × List Sample
  | 0, _, s => (s, [])
  | n + 1, i, s =>
    let p := simStep resistor timestepSize logicHighVoltage i s
    let q := runSteps resistor timestepSize logicHighVoltage n (i + 1) p.1
    (q.1, p.2 :: q.2)

/-- Embedding of `auto timeConstant = capacitance * resistance` (line 324). -/
def timeConstant (resistance capacitance : floating) : floating :=
  capacitance * resistance

/-- Embedding of `auto timestepSize = 1e-4 * timeConstant` (line 328). -/
def timestepSize (resistance capacitance : floating) : floating :=
  (1 / 10000) * timeConstant resistance capacitance

/-- Embedding of `auto numberOfTimesteps = 10 * timeConstant / timestepSize`
(line 329). -/
def numberOfTimesteps (resistance capacitance : floating) : floating :=
  10 * timeConstant resistance capacitance / timestepSize resistance capacitance

/-- Number of iterations of `for (auto step = 0; step < numberOfTimesteps;
step++)` (line 343): the `int` counter runs from `0` while it is below the
floating bound, giving `⌈numberOfTimesteps⌉₊` iterations. -/
def loopIterations (resistance capacitance : floating) : ℕ :=
  ⌈numberOfTimesteps resistance capacitance⌉₊

/-- The state of the loop of `main` just before the first iteration (lines
317-342): components built from the parsed parameters, a fresh
`StateMonitor`, and an empty `lastInverterOutput`.  The two indeterminate
default-initialized members (the capacitor charge and the inverter state
boolean) are explicit parameters. -/
def initialSimState (resistance capacitance logicLowVoltage logicHighVoltage
    logicLowTransitionVoltage logicHighTransitionVoltage
    indeterminateCharge : floating) (indeterminateHi : Bool) : SimState :=
  { capacitor := Capacitor.construct capacitance indeterminateCharge
    inverter := Inverter.construct logicLowVoltage logicHighVoltage
      logicLowTransitionVoltage logicHighTransitionVoltage 0 indeterminateHi
    monitor := StateMonitor.init
    lastInverterOutput := none }

/-- The CSV sample stream emitted by the loop of `main`. -/
def mainSamples (resistance capacitance logicLowVoltage logicHighVoltage
    logicLowTransitionVoltage logicHighTransitionVoltage
    indeterminateCharge : floating) (indeterminateHi : Bool) : List Sample :=
  (runSteps (Resistor.mk resistance) (timestepSize resistance capacitance)
    logicHighVoltage (loopIterations resistance capacitance) 0
    (initialSimState resistance capacitance logicLowVoltage logicHighVoltage
      logicLowTransitionVoltage logicHighTransitionVoltage
      indeterminateCharge indeterminateHi)).2

/-- The `stateMonitor` object after the loop of `main` finishes. -/
def mainMonitor (resistance capacitance logicLowVoltage logicHighVoltage
    logicLowTransitionVoltage logicHighTransitionVoltage
    indeterminateCharge : floating) (indeterminateHi : Bool) : StateMonitor :=
  ((runSteps (Resistor.mk resistance) (timestepSize resistance capacitance)
    logicHighVoltage (loopIterations resistance capacitance) 0
    (initialSimState resistance capacitance logicLowVoltage logicHighVoltage
      logicLowTransitionVoltage logicHighTransitionVoltage
      indeterminateCharge indeterminateHi)).1).monitor

/-- Embedding of `auto frequency = 1./stateMonitor.getPeriod()` (line
368).  `main` performs this query unconditionally; when either monitor
accumulator is unset the underlying `std::optional::value()` call throws
`std::bad_optional_access`, modelled by `none`. -/
def mainFrequency (resistance capacitance logicLowVoltage logicHighVoltage
    logicLowTransitionVoltage logicHighTransitionVoltage
    indeterminateCharge : floating) (indeterminateHi : Bool) : Option floating :=
  (mainMonitor resistance capacitance logicLowVoltage logicHighVoltage
    logicLowTransitionVoltage logicHighTransitionVoltage
    indeterminateCharge indeterminateHi).getPeriod.map fun p => 1 / p

/-- The complete result of one run, used to state determinism of the
simulation: the sample stream, the final monitor and the reported
frequency, as a pure function of the parsed parameters (and of the two
indeterminate default-initialized members). -/
def runSimulation (resistance capacitance logicLowVoltage logicHighVoltage
    logicLowTransitionVoltage logicHighTransitionVoltage
    indeterminateCharge : floating) (indeterminateHi : Bool) :
    List Sample × StateMonitor × Option floating :=
  (mainSamples resistance capacitance logicLowVoltage logicHighVoltage
      logicLowTransitionVoltage logicHighTransitionVoltage
      indeterminateCharge indeterminateHi,
   mainMonitor resistance capacitance logicLowVoltage logicHighVoltage
      logicLowTransitionVoltage logicHighTransitionVoltage
      indeterminateCharge indeterminateHi,
   mainFrequency resistance capacitance logicLowVoltage logicHighVoltage
      logicLowTransitionVoltage logicHighTransitionVoltage
      indeterminateCharge indeterminateHi)

/-- Embedding of `EXIT_SUCCESS`. -/
def EXIT_SUCCESS : ℕ := 0

/-- Embedding of `EXIT_FAILURE`. -/
def EXIT_FAILURE : ℕ := 1

/-- Observable outcome of `main` used to state the file-error-handling
claims.  `exitCode` is `none` when the process is terminated by the
uncaught `std::bad_optional_access` thrown from `getPeriod` (line 368),
and `some code` when `main` returns normally. -/
structure MainResult where
  descriptionWarning : Bool
  descriptionWrites : List String
  csvWarning : Bool
  samples : List Sample
  frequency : Option floating
  exitCode : Option ℕ
deriving DecidableEq, Repr

/-- Embedding of the control flow of `main` around the two output files
(lines 304-315 and 334-338 and 343-373).  `descrOpenOk` and `csvOpenOk`
model whether `std::ofstream` managed to open `description.dat` and
`output.csv`.  A failed description open only prints a warning and skips
the seven parameter writes; a failed CSV open prints a warning and
returns `EXIT_FAILURE` before the loop.  Otherwise the loop runs and the
frequency query follows. -/
def mainRun (descrOpenOk csvOpenOk : Bool) (resistance capacitance
    logicLowVoltage logicHighVoltage logicLowTransitionVoltage
    logicHighTransitionVoltage indeterminateCharge : floating)
    (indeterminateHi : Bool) : MainResult :=
  let descriptionWrites := if descrOpenOk then
      ["FILE", "RESISTANCE", "CAPACITANCE", "LH", "LL", "LLT", "LHT"]
    else []
  let descriptionWarning := !descrOpenOk
  if !csvOpenOk then
    { descriptionWarning := descriptionWarning
      descriptionWrites := descriptionWrites
      csvWarning := true
      samples := []
      frequency := none
      exitCode := some EXIT_FAILURE }
  else
    let freq := mainFrequency resistance capacitance logicLowVoltage
      logicHighVoltage logicLowTransitionVoltage logicHighTransitionVoltage
      indeterminateCharge indeterminateHi
    { descriptionWarning := descriptionWarning
      descriptionWrites := descriptionWrites
      csvWarning := false
      samples := mainSamples resistance capacitance logicLowVoltage
        logicHighVoltage logicLowTransitionVoltage logicHighTransitionVoltage
        indeterminateCharge indeterminateHi
      frequency := freq
      exitCode := if freq.isSome then some EXIT_SUCCESS else none }

/-! Helper lemmas about the embedded definitions. -/

theorem setInputVoltage_outputHi (inv : Inverter) (v : floating) :
    (inv.setInputVoltage v).outputHi = inv.outputHi := by
  unfold Inverter.setInputVoltage
  split_ifs <;> rfl

theorem setInputVoltage_outputLow (inv : Inverter) (v : floating) :
    (inv.setInputVoltage v).outputLow = inv.outputLow := by
  unfold Inverter.setInputVoltage
  split_ifs <;> rfl

theorem getOutputVoltage_const (inv : Inverter) (V : floating)
    (hHi : inv.outputHi = V) (hLo : inv.outputLow = V) :
    inv.getOutputVoltage = V := by
  unfold Inverter.getOutputVoltage
  split_ifs <;> assumption

theorem voltage_foldl_addCharge (C g : floating) :
    ∀ qs : List floating,
      (qs.foldl Capacitor.addCharge (Capacitor.construct C g)).totalCharge
        = g + qs.sum := by
  have key : ∀ (qs : List floating) (g : floating),
      (qs.foldl Capacitor.addCharge (Capacitor.construct C g)).totalCharge
        = g + qs.sum := by
    intro qs
    induction qs with
    | nil => intro g; simp [Capacitor.construct]
    | cons q qs ih =>
      intro g
      have : (Capacitor.construct C g).addCharge q = Capacitor.construct C (g + q) := rfl
      simp only [List.foldl_cons, this, ih, List.sum_cons]
      ring
  exact fun qs => key qs g

theorem simStep_sample_time (r : Resistor) (dt lh : floating) (i : ℕ) (s : SimState) :
    (simStep r dt lh i s).2.time = (i : floating) * dt := by
  rcases s with ⟨c, inv, m, last⟩
  cases last <;> simp [simStep] <;> split_ifs <;> rfl

theorem runSteps_length (r : Resistor) (dt lh : floating) :
    ∀ (n i : ℕ) (s : SimState), ((runSteps r dt lh n i s).2).length = n := by
  intro n
  induction n with
  | zero => intro i s; rfl
  | succ n ih => intro i s; simp [runSteps, ih]

theorem runSteps_times (r : Resistor) (dt lh : floating) :
    ∀ (n i : ℕ) (s : SimState),
      ((runSteps r dt lh n i s).2).map Sample.time
        = (List.range n).map (fun j => ((i + j : ℕ) : floating) * dt) := by
  intro n
  induction n with
  | zero => intro i s; rfl
  | succ n ih =>
    intro i s
    rw [List.range_succ_eq_map]
    simp only [runSteps, List.map_cons, simStep_sample_time, ih, List.map_map]
    have hhead : (i : floating) * dt = ((i + 0 : ℕ) : floating) * dt := by norm_num
    rw [hhead]
    congr 1
    apply List.map_congr_left
    intro j hj
    simp only [Function.comp_apply]
    have harg : i + 1 + j = i + Nat.succ j := by omega
    rw [harg]

theorem simStep_const_levels (r : Resistor) (dt lh V : floating) (i : ℕ)
    (s : SimState) (hHi : s.inverter.outputHi = V) (hLo : s.inverter.outputLow = V)
    (hLast : s.lastInverterOutput = none ∨ s.lastInverterOutput = some V) :
    (simStep r dt lh i s).1.monitor = s.monitor ∧
    (simStep r dt lh i s).1.inverter.outputHi = V ∧
    (simStep r dt lh i s).1.inverter.outputLow = V ∧
    ((simStep r dt lh i s).1.lastInverterOutput = none ∨
      (simStep r dt lh i s).1.lastInverterOutput = some V) := by
  rcases s with ⟨c, inv, m, last⟩
  have hHi2 : (inv.setInputVoltage (c.addCharge
      (r.current inv.getOutputVoltage c.voltage * dt)).voltage).outputHi = V := by
    rw [setInputVoltage_outputHi]; exact hHi
  have hLo2 : (inv.setInputVoltage (c.addCharge
      (r.current inv.getOutputVoltage c.voltage * dt)).voltage).outputLow = V := by
    rw [setInputVoltage_outputLow]; exact hLo
  have hOut : (inv.setInputVoltage (c.addCharge
      (r.current inv.getOutputVoltage c.voltage * dt)).voltage).getOutputVoltage = V :=
    getOutputVoltage_const _ _ hHi2 hLo2
  rcases hLast with hnone | hV
  · simp only at hnone
    subst hnone
    simp [simStep, hOut, hHi2, hLo2]
  · simp only at hV
    subst hV
    simp [simStep, hOut, hHi2, hLo2]

theorem runSteps_monitor_const_levels (r : Resistor) (dt lh V : floating) :
    ∀ (n i : ℕ) (s : SimState), s.inverter.outputHi = V → s.inverter.outputLow = V →
      (s.lastInverterOutput = none ∨ s.lastInverterOutput = some V) →
      (runSteps r dt lh n i s).1.monitor = s.monitor := by
  intro n
  induction n with
  | zero => intro i s _ _ _; rfl
  | succ n ih =>
    intro i s hHi hLo hLast
    obtain ⟨hm, hHi2, hLo2, hLast2⟩ := simStep_const_levels r dt lh V i s hHi hLo hLast
    calc (runSteps r dt lh (n + 1) i s).1.monitor
        = (runSteps r dt lh n (i + 1) (simStep r dt lh i s).1).1.monitor := rfl
      _ = (simStep r dt lh i s).1.monitor := ih (i + 1) _ hHi2 hLo2 hLast2
      _ = s.monitor := hm

theorem sorted_sample_times (dt : floating) (hdt : 0 ≤ dt) (n i : ℕ) :
    List.Sorted (· ≤ ·) ((List.range n).map fun j => ((i + j : ℕ) : floating) * dt) := by
  have hp : List.Pairwise (· < ·) (List.range n) := List.pairwise_lt_range n
  refine hp.map _ ?_
  intro a b hab
  have : ((i + a : ℕ) : floating) ≤ ((i + b : ℕ) : floating) := by
    exact_mod_cast Nat.add_le_add_left (Nat.le_of_lt hab) i
  exact mul_le_mul_of_nonneg_right this hdt

/-- Claim C2 (code bug): the claim says a freshly constructed `Capacitor`
has `totalCharge` equal to zero, but the C++ constructor (line 47) leaves
`totalCharge` default-initialized, so a fresh capacitor keeps the
indeterminate value of its storage: when that value is 1 (with
capacitance 1), `voltage()` returns 1, not the claimed 0; the claimed
behaviour is recovered exactly when the indeterminate value happens to
be zero. -/
theorem capacitor_uninit_charge_bug :
    (Capacitor.construct 1 1).voltage = 1 ∧ (Capacitor.construct 1 1).voltage ≠ 0 ∧
    (Capacitor.construct 1 0).voltage = 0 := by
  refine ⟨?_, ?_, ?_⟩ <;> simp [Capacitor.construct, Capacitor.voltage]

/-- Claim C3: for every input voltage `v` fed to `Inverter.setInputVoltage`,
a Low inverter becomes High iff `v <= hiLowTransition`, a High inverter
becomes Low iff `v >= lowHiTransition`, and any `v` strictly between the
two thresholds leaves the state unchanged in either direction, with both
comparisons non-strict. -/
theorem setInputVoltage_hysteresis (inv : Inverter) (v : floating) :
    (inv.hi = false → ((inv.setInputVoltage v).hi = true ↔ v ≤ inv.hiLowTransition)) ∧
    (inv.hi = true → ((inv.setInputVoltage v).hi = false ↔ inv.lowHiTransition ≤ v)) ∧
    (inv.hiLowTransition < v → v < inv.lowHiTransition →
      (inv.setInputVoltage v).hi = inv.hi) := by
  rcases inv with ⟨oh, ol, hl, lh, hi⟩
  cases hi <;>
    simp only [Inverter.setInputVoltage] <;>
    simp <;>
    split_ifs <;>
    simp_all

/-- Witness for claim C3 at a concrete inverter: 1 volt lies strictly inside
the default hysteresis band 0.6 .. 2.5, so a Low inverter stays Low. -/
theorem setInputVoltage_hysteresis_witness :
    ((Inverter.mk 5 0 (6/10) (5/2) false).setInputVoltage 1).hi = false := by
  have h := (setInputVoltage_hysteresis (Inverter.mk 5 0 (6/10) (5/2) false) 1).2.2
    (by norm_num) (by norm_num)
  exact h

/-- Claim C4 (code bug): the claim says the state after construction equals
the transition rule applied to the constructor voltage starting from
`hi = false`, but the C++ constructor (lines 126-136) leaves `hi`
uninitialized before calling `setInputVoltage`: with indeterminate
`hi = true`, thresholds 0.6 and 2.5 and constructor voltage 1 the
inverter ends High, while the rule applied from `false` ends Low
(third conjunct: 1 is not below the 0.6 threshold). -/
theorem inverter_uninit_hi_bug :
    (Inverter.construct 0 5 (6/10) (5/2) 1 true).hi = true ∧
    (Inverter.construct 0 5 (6/10) (5/2) 1 false).hi = false ∧
    ¬ ((1 : floating) ≤ 6/10) := by
  refine ⟨?_, ?_, by norm_num⟩ <;>
    simp only [Inverter.construct, Inverter.setInputVoltage] <;>
    norm_num

/-- Claim C5: the first `stateChange` call after construction fills neither
duration accumulator; on any later call with `previousTime = some p`, the
interval `time - p` is stored as the low duration exactly when the new
state is high and the low duration is still unset, and as the high
duration exactly when the new state is low and the high duration is
still unset; and every call ends by setting `previousTime` to the given
time. -/
theorem stateChange_spec :
    (∀ (b : Bool) (t : floating),
      (StateMonitor.init.stateChange b t).lowInterval = none ∧
      (StateMonitor.init.stateChange b t).highInterval = none) ∧
    (∀ (m : StateMonitor) (b : Bool) (t p : floating), m.previousTime = some p →
      ((m.stateChange b t).lowInterval =
        if b = true ∧ m.lowInterval = none then some (t - p) else m.lowInterval) ∧
      ((m.stateChange b t).highInterval =
        if b = false ∧ m.highInterval = none then some (t - p) else m.highInterval)) ∧
    (∀ (m : StateMonitor) (b : Bool) (t : floating),
      (m.stateChange b t).previousTime = some t) := by
  refine ⟨?_, ?_, ?_⟩
  · intro b t
    simp [StateMonitor.stateChange, StateMonitor.init]
  · intro m b t p hp
    rcases m with ⟨hi, lo, prev⟩
    simp only at hp
    subst hp
    cases b <;> rcases hi with _ | h <;> rcases lo with _ | l <;>
      simp [StateMonitor.stateChange]
  · intro m b t
    rcases m with ⟨hi, lo, prev⟩
    rcases prev with _ | p <;> cases b <;> rcases hi with _ | h <;> rcases lo with _ | l <;>
      simp [StateMonitor.stateChange]

/-- Witness for claim C5: a monitor with `previousTime = some 0` and both
accumulators empty records the low duration 3 on a high transition at
time 3. -/
theorem stateChange_spec_witness :
    ((StateMonitor.mk none none (some 0)).stateChange true 3).lowInterval = some 3 := by
  have h := (stateChange_spec.2.1 (StateMonitor.mk none none (some 0)) true 3 0 rfl).1
  simpa using h

/-- Claim C6: when both duration accumulators are set, `getPeriod` returns
`lowDuration + highDuration`; in particular after three `stateChange`
calls at times `t0, t1, t2` with alternating levels it returns
`(t1 - t0) + (t2 - t1)`. -/
theorem getPeriod_spec :
    (∀ (m : StateMonitor) (h l : floating), m.highInterval = some h →
      m.lowInterval = some l → m.getPeriod = some (l + h)) ∧
    (∀ (b : Bool) (t0 t1 t2 : floating),
      (((StateMonitor.init.stateChange b t0).stateChange (!b) t1).stateChange
        b t2).getPeriod = some ((t1 - t0) + (t2 - t1))) := by
  constructor
  · intro m h l hh hl
    rcases m with ⟨hi, lo, prev⟩
    simp only at hh hl
    subst hh hl
    simp [StateMonitor.getPeriod, add_comm]
  · intro b t0 t1 t2
    cases b <;>
      simp [StateMonitor.stateChange, StateMonitor.init, StateMonitor.getPeriod]

/-- Witness for claim C6: with high duration 2 and low duration 3 recorded,
`getPeriod` returns 5. -/
theorem getPeriod_spec_witness :
    (StateMonitor.mk (some 2) (some 3) (some 9)).getPeriod = some 5 := by
  have h := getPeriod_spec.1 (StateMonitor.mk (some 2) (some 3) (some 9)) 2 3 rfl rfl
  exact h.trans (by norm_num)

/-- Claim C8: for every resistance `R > 0` and voltages `a, b`, the
resistor current is `(a - b) / R`, and swapping the two sides negates
the current. -/
theorem current_spec (R a b : floating) (h : 0 < R) :
    (Resistor.mk R).current a b = (a - b) / R ∧
    (Resistor.mk R).current a b = -((Resistor.mk R).current b a) := by
  refine ⟨rfl, ?_⟩
  simp only [Resistor.current]
  ring

/-- Witness for claim C8 at `R = 2`, `a = 3`, `b = 1`. -/
theorem current_spec_witness :
    (Resistor.mk 2).current 3 1 = -((Resistor.mk 2).current 1 3) :=
  (current_spec 2 3 1 (by norm_num)).2

/-- Claim C1 (code bug): in a degenerate run in which the inverter output
never toggles - here forced by making the logic-low and logic-high
levels equal, so fewer than one full high-phase and one full low-phase
occur - both monitor accumulators stay empty, yet `main` (line 368)
queries `getPeriod` unconditionally: the query yields `none`, i.e. the
underlying `std::optional::value()` call throws, instead of the
reportable error the claim requires. -/
theorem mainFrequency_none_when_levels_equal
    (R C V LLT LHT g : floating) (gh : Bool) :
    mainMonitor R C V V LLT LHT g gh = StateMonitor.init ∧
    mainFrequency R C V V LLT LHT g gh = none := by
  have hmon : mainMonitor R C V V LLT LHT g gh = StateMonitor.init := by
    unfold mainMonitor
    have h := runSteps_monitor_const_levels (Resistor.mk R) (timestepSize R C) V V
      (loopIterations R C) 0
      (initialSimState R C V V LLT LHT g gh) ?_ ?_ ?_
    · exact h
    · simp [initialSimState, Inverter.construct, setInputVoltage_outputHi]
    · simp [initialSimState, Inverter.construct, setInputVoltage_outputLow]
    · left; rfl
  refine ⟨hmon, ?_⟩
  unfold mainFrequency
  rw [hmon]
  rfl

/-- Counterexample to claim C7 as stated: with caller-supplied `R = 1` and
`C = 0` the derived step count is 0, not approximately 100000, and the
loop emits no samples, so the step count is not 100000 regardless of
`R` and `C`. -/
theorem loopIterations_zero_capacitance :
    loopIterations 1 0 = 0 ∧ loopIterations 1 0 ≠ 100000 ∧
    (mainSamples 1 0 0 5 (6/10) (5/2) 0 false).length = 0 := by
  have h0 : numberOfTimesteps 1 0 = 0 := by
    simp [numberOfTimesteps, timestepSize, timeConstant]
  have hl : loopIterations 1 0 = 0 := by
    simp [loopIterations, h0]
  refine ⟨hl, by simp [hl], ?_⟩
  rw [mainSamples, runSteps_length]
  exact hl

/-- Claim C7 (amended): for caller-supplied `R` and `C` with `R * C > 0`,
the derived run parameters satisfy `timeConstant = R * C`,
`timestepSize = 1e-4 * timeConstant` and
`numberOfTimesteps = 10 * timeConstant / timestepSize = 100000` exactly,
the loop runs 100000 iterations, and for any remaining parameters it
emits exactly 100000 samples whose time column `step * timestepSize` is
monotonically non-decreasing. -/
theorem run_parameters_spec (R C : floating) (h : 0 < R * C) :
    timeConstant R C = R * C ∧
    timestepSize R C = (1 / 10000) * timeConstant R C ∧
    numberOfTimesteps R C = 10 * timeConstant R C / timestepSize R C ∧
    numberOfTimesteps R C = 100000 ∧
    loopIterations R C = 100000 ∧
    ∀ (LL LH LLT LHT g : floating) (gh : Bool),
      (mainSamples R C LL LH LLT LHT g gh).length = 100000 ∧
      List.Sorted (· ≤ ·) ((mainSamples R C LL LH LLT LHT g gh).map Sample.time) := by
  have htc : timeConstant R C = R * C := mul_comm C R
  have htcne : timeConstant R C ≠ 0 := by rw [htc]; exact ne_of_gt h
  have hN : numberOfTimesteps R C = 100000 := by
    unfold numberOfTimesteps timestepSize
    field_simp
    ring
  have hit : loopIterations R C = 100000 := by
    unfold loopIterations
    rw [hN]
    norm_num
  have hdt : 0 ≤ timestepSize R C := by
    unfold timestepSize
    rw [htc]
    positivity
  refine ⟨htc, rfl, rfl, hN, hit, ?_⟩
  intro LL LH LLT LHT g gh
  constructor
  · rw [mainSamples, runSteps_length, hit]
  · rw [mainSamples, runSteps_times]
    exact sorted_sample_times _ hdt _ _

/-- Witness for claim C7 at the default parameters `R = 1000` ohms and
`C = 1e-7` farads. -/
theorem run_parameters_spec_witness :
    numberOfTimesteps 1000 (1/10000000) = 100000 ∧
    loopIterations 1000 (1/10000000) = 100000 :=
  ⟨(run_parameters_spec 1000 (1/10000000) (by norm_num)).2.2.2.1,
   (run_parameters_spec 1000 (1/10000000) (by norm_num)).2.2.2.2.1⟩

/-- Unfolding lemma for one iteration of the embedded loop: running
`n + 1` steps first performs `simStep` at index `i` and conses its
sample onto the remaining run. -/
theorem runSteps_succ (r : Resistor) (dt lh : floating) (n i : ℕ) (s : SimState) :
    runSteps r dt lh (n + 1) i s
      = ((runSteps r dt lh n (i + 1) (simStep r dt lh i s).1).1,
         (simStep r dt lh i s).2 :: (runSteps r dt lh n (i + 1) (simStep r dt lh i s).1).2) :=
  rfl

/-- Claim C9 (code bug): the claim says two runs with identical input
parameters (R, C, logic voltages, thresholds) produce identical sample
streams, transitions and reported frequency, but the run also depends on
the indeterminate default-initialized `totalCharge` member, which is not
an input parameter: at the default inputs, with indeterminate initial
charge 0 in one run and 1e-7 coulombs in the other, the first CSV sample
already differs (capacitor voltage 1/2000 versus 2501/2500), so the two
run results are unequal.  The hidden dependence comes from the
uninitialized reads of claims C2 and C4, not from randomness or the
wall clock. -/
theorem runSimulation_uninit_nondeterminism :
    (mainSamples 1000 (1/10000000) 0 5 (6/10) (5/2) 0 false).head?
        = some (Sample.mk 0 (1/2000) 5) ∧
    (mainSamples 1000 (1/10000000) 0 5 (6/10) (5/2) (1/10000000) false).head?
        = some (Sample.mk 0 (2501/2500) 5) ∧
    runSimulation 1000 (1/10000000) 0 5 (6/10) (5/2) 0 false
      ≠ runSimulation 1000 (1/10000000) 0 5 (6/10) (5/2) (1/10000000) false := by
  have hN : numberOfTimesteps 1000 (1/10000000) = 100000 := by
    norm_num [numberOfTimesteps, timestepSize, timeConstant]
  have hlen : loopIterations 1000 (1/10000000) = 99999 + 1 := by
    rw [loopIterations, hN]
    norm_num
  have h1 : (mainSamples 1000 (1/10000000) 0 5 (6/10) (5/2) 0 false).head?
      = some (Sample.mk 0 (1/2000) 5) := by
    rw [mainSamples, hlen, runSteps_succ]
    norm_num [simStep, initialSimState, Capacitor.construct, Capacitor.addCharge,
      Capacitor.voltage, Resistor.current, Inverter.construct, Inverter.setInputVoltage,
      Inverter.getOutputVoltage, timestepSize, timeConstant, Sample.mk.injEq]
  have h2 : (mainSamples 1000 (1/10000000) 0 5 (6/10) (5/2) (1/10000000) false).head?
      = some (Sample.mk 0 (2501/2500) 5) := by
    rw [mainSamples, hlen, runSteps_succ]
    norm_num [simStep, initialSimState, Capacitor.construct, Capacitor.addCharge,
      Capacitor.voltage, Resistor.current, Inverter.construct, Inverter.setInputVoltage,
      Inverter.getOutputVoltage, timestepSize, timeConstant, Sample.mk.injEq]
  refine ⟨h1, h2, ?_⟩
  intro heq
  have hsamp : mainSamples 1000 (1/10000000) 0 5 (6/10) (5/2) 0 false
      = mainSamples 1000 (1/10000000) 0 5 (6/10) (5/2) (1/10000000) false :=
    congrArg Prod.fst heq
  rw [hsamp] at h1
  have hcontra := h1.symm.trans h2
  simp only [Option.some.injEq, Sample.mk.injEq] at hcontra
  norm_num at hcontra

/-- Claim C10: failing to open `output.csv` makes `main` return
`EXIT_FAILURE` with no samples emitted (the loop never starts), while
failing to open `description.dat` only raises a warning and skips the
seven parameter description writes: the sample stream, its full length
and the exit code are the same as in a run where the description file
opened. -/
theorem mainRun_file_errors (descrOk : Bool)
    (R C LL LH LLT LHT g : floating) (gh : Bool) :
    ((mainRun descrOk false R C LL LH LLT LHT g gh).exitCode = some EXIT_FAILURE ∧
     (mainRun descrOk false R C LL LH LLT LHT g gh).samples = [] ∧
     (mainRun descrOk false R C LL LH LLT LHT g gh).csvWarning = true) ∧
    ((mainRun false true R C LL LH LLT LHT g gh).descriptionWarning = true ∧
     (mainRun false true R C LL LH LLT LHT g gh).descriptionWrites = [] ∧
     (mainRun false true R C LL LH LLT LHT g gh).samples.length = loopIterations R C ∧
     (mainRun false true R C LL LH LLT LHT g gh).samples
        = (mainRun true true R C LL LH LLT LHT g gh).samples ∧
     (mainRun false true R C LL LH LLT LHT g gh).exitCode
        = (mainRun true true R C LL LH LLT LHT g gh).exitCode) := by
  refine ⟨⟨rfl, rfl, rfl⟩, rfl, rfl, ?_, rfl, rfl⟩
  show (mainSamples R C LL LH LLT LHT g gh).length = loopIterations R C
  rw [mainSamples, runSteps_length]
